import Mathlib

/-!
Shallow embedding of src/Landwatch/Landwatch_003/NCNOHandler.py:
a ChirpStack DI1 status monitor that debounces a binary status stream
with a deadman timer and fans commands out to a fleet of controllers.

Modelling conventions:
- CSV rows are lists of cell strings; read_controllers mirrors the row
  filter of the Python function (line 49).
- Module-level load (lines 62-69) is moduleInit: it reads the CSV once,
  computes MAX_WORKERS = min(len(controllers), 10) and constructs the
  worker pool; CPython's ThreadPoolExecutor raises ValueError when
  max_workers is not positive, modelled by thread_pool_new.
- The debouncer's shared state (_di_timeout_timer plus the set of armed
  Timer objects, lines 71-74) is DebounceState; timer objects get
  Nat identities from a freshness counter. cancel_then_arm is the body
  of the with-lock block of process_status (lines 147-162).
- Fallible Python code (an unreadable CSV file raising inside
  process_status) is modelled by an Option argument for the CSV
  contents and a raised flag in the result.
- send_downlink_parallel (line 115) first submits one _enqueue task per
  entry of dev_euis (the dict comprehension, line 117) and then logs
  each future's outcome in completion order (as_completed, line 119);
  the completion order and the per-task results are environment
  parameters.
-/

namespace NCNOHandler

/-- Configured authoritative source id (line 38). -/
def MASTER_EUI : String := "a84041679d5cfcf2"

/-- Watchdog window in seconds (line 42). -/
def TIMEOUT_SECONDS : Nat := 30

/-- Payload for DI1 = L (line 45). -/
def PAYLOAD_LOW_HEX : String := "050011EA60"

/-- Payload for DI1 = H or timeout (line 46). -/
def PAYLOAD_HIGH_HEX : String := "030000"

/-- Constant 10 of MAX_WORKERS = min(controllers_list_num, 10) (line 64). -/
def CONCURRENCY_CAP : Nat := 10

/-- Python str.isspace on the ASCII whitespace characters recognized by
str.strip with no argument. -/
def py_isspace (c : Char) : Bool :=
  c = ' ' ∨ c = '\t' ∨ c = '\n' ∨ c = '\r' ∨ c = '\x0b' ∨ c = '\x0c'

/-- Python str.strip with no argument: remove leading and trailing
whitespace. -/
def py_strip (s : String) : String :=
  String.mk (((s.toList.dropWhile py_isspace).reverse.dropWhile py_isspace).reverse)

/-- read_controllers (line 49): keep, in order and with duplicates, the
first cell of every row whose second cell is the word controller,
both cells stripped of surrounding whitespace. -/
def read_controllers (rows : List (List String)) : List String :=
  rows.filterMap (fun row =>
    if 2 ≤ row.length ∧ py_strip (row.getD 1 "") = "controller" then
      some (py_strip (row.getD 0 ""))
    else none)

/-- CPython ThreadPoolExecutor (line 69): constructing a pool with a
non-positive max_workers raises ValueError at construction time,
otherwise the pool's worker bound is fixed to max_workers. -/
def thread_pool_new (max_workers : Nat) : Except String Nat :=
  if max_workers = 0 then Except.error "max_workers must be greater than 0"
  else Except.ok max_workers

/-- Module-level state built at import time (lines 62-69). -/
structure ModuleState where
  controllers_list : List String
  maxWorkers : Nat
deriving DecidableEq

/-- Module-level load (lines 62-69): read the CSV once, compute
MAX_WORKERS = min(len(controllers_list), 10) and construct the global
_executor; an executor construction error aborts the import before any
MQTT event or timer can run. -/
def moduleInit (csvRows : List (List String)) : Except String ModuleState :=
  let cl := read_controllers csvRows
  let mw := min cl.length CONCURRENCY_CAP
  match thread_pool_new mw with
  | Except.error e => Except.error e
  | Except.ok _ => Except.ok { controllers_list := cl, maxWorkers := mw }

/-- Pool in effect for one dispatch cycle: every cycle submits to the
module-global _executor built at import (lines 69 and 117), so the
bound is the load-time maxWorkers whatever that cycle's fleet read
(cycleRows) returns. -/
def cycle_pool (m : ModuleState) (cycleRows : List (List String)) : Nat :=
  m.maxWorkers

/-- Debouncer shared state (lines 71-74): the _di_timeout_timer variable
(handle), the set of armed not-yet-fired not-yet-cancelled Timer
objects (live), the set of fired timers whose callback has not yet
entered the lock (pending), and a freshness counter naming the next
Timer object. -/
structure DebounceState where
  handle : Option Nat
  live : Finset Nat
  pending : Finset Nat
  fresh : Nat
deriving DecidableEq

/-- State at process start (lines 72-73): _di_timeout_timer is None and
no Timer object exists. -/
def init_debounce : DebounceState :=
  { handle := none, live := ∅, pending := ∅, fresh := 0 }

/-- main (lines 203-222) registers signal handlers, builds the MQTT
client and enters loop_forever; it neither calls process_status nor
arms any timer, so it leaves the debouncer state unchanged. -/
def main_startup (st : DebounceState) : DebounceState := st

/-- Body of the with _lock block of process_status (lines 147-162):
cancel the old timer if the handle is non-null, then create, record and
start a fresh Timer for TIMEOUT_SECONDS. -/
def cancel_then_arm (st : DebounceState) : DebounceState :=
  let live1 := match st.handle with
    | some t => st.live.erase t
    | none => st.live
  { handle := some st.fresh
    live := insert st.fresh live1
    pending := st.pending
    fresh := st.fresh + 1 }

/-- Atomic events of the debouncer, interleaved in any order:
statusCall is a process_status call (from ingestion or from a timer
callback) entering the lock; fire t is armed timer t expiring, after
which cancel no longer stops it; callbackRun t is fired timer t's
callback (which itself calls process_status) entering the lock. -/
inductive Step
  | statusCall : Step
  | fire : Nat → Step
  | callbackRun : Nat → Step
deriving DecidableEq

/-- One interleaving step of the debouncer; events whose precondition
does not hold (firing a timer that is not armed, running a callback of
a timer that has not fired) leave the state unchanged. -/
def step (a : Step) (st : DebounceState) : DebounceState :=
  match a with
  | Step.statusCall => cancel_then_arm st
  | Step.fire t =>
      if t ∈ st.live then
        { st with live := st.live.erase t, pending := insert t st.pending }
      else st
  | Step.callbackRun t =>
      if t ∈ st.pending then
        { cancel_then_arm st with pending := st.pending.erase t }
      else st

/-- Debouncer state after an arbitrary interleaving of status calls and
timer expiries, starting from process start. -/
def run (tr : List Step) : DebounceState :=
  tr.foldl (fun st a => step a st) init_debounce

/-- One dispatch cycle's command batch: the payload and the fleet list
passed to send_downlink_parallel (line 175). -/
structure Dispatch where
  payload : String
  targets : List String
deriving DecidableEq

/-- Log entries written through the module logger. -/
inductive LogEntry
  | info : String → LogEntry
  | error : String → LogEntry
deriving DecidableEq

/-- Payload chosen at dispatch time (line 171):
PAYLOAD_LOW_HEX if status == L else PAYLOAD_HIGH_HEX. -/
def select_payload (status : String) : String :=
  if status = "L" then PAYLOAD_LOW_HEX else PAYLOAD_HIGH_HEX

/-- Result of one process_status call: the debouncer state after its
lock section, the dispatch batches it started, the log lines it wrote,
and whether an exception escaped it (only an unreadable CSV can raise,
at line 165, after the new timer is already armed). -/
structure PSResult where
  state : DebounceState
  dispatches : List Dispatch
  logs : List LogEntry
  raised : Bool
deriving DecidableEq

/-- process_status (lines 139-175). rows? is the CSV contents seen by
the read_controllers call of line 165; none means the file was
unreadable and the read raised. The lock section always runs first. -/
def process_status (rows? : Option (List (List String))) (st : DebounceState)
    (status : String) : PSResult :=
  let st1 := cancel_then_arm st
  match rows? with
  | none => { state := st1, dispatches := [], logs := [], raised := true }
  | some rows =>
    let ctrls := read_controllers rows
    if ctrls = [] then
      { state := st1
        dispatches := []
        logs := [LogEntry.error "No controllers found, skip downlink"]
        raised := false }
    else
      { state := st1
        dispatches := [{ payload := select_payload status, targets := ctrls }]
        logs := [LogEntry.info "Processing status"]
        raised := false }

/-- The timer callback (lines 159-160): lambda: process_status of H. -/
def timer_expiry (rows? : Option (List (List String))) (st : DebounceState) :
    PSResult :=
  process_status rows? st "H"

/-- k consecutive watchdog windows of source silence: the deadman timer
fires k times, each expiry running the callback to completion before
the next window elapses; returns the final state and all dispatch
batches started. -/
def silent_run (rows? : Option (List (List String))) (st : DebounceState) :
    Nat → DebounceState × List Dispatch
  | 0 => (st, [])
  | Nat.succ k =>
    let r := timer_expiry rows? st
    let rest := silent_run rows? r.state k
    (rest.1, r.dispatches ++ rest.2)

/-- Result of one _enqueue future (lines 121-129): success with a queue
item id, a grpc.RpcError, a TimeoutError, or any other exception. -/
inductive EnqueueResult
  | ok : Nat → EnqueueResult
  | rpcError : String → EnqueueResult
  | timeoutErr : EnqueueResult
  | otherErr : String → EnqueueResult
deriving DecidableEq

/-- Body of the as_completed loop of send_downlink_parallel (lines
119-129): each future's result is taken under its own try, so one
member's error is turned into that member's log line only. -/
def handle_future (eui : String) (r : EnqueueResult) : LogEntry :=
  match r with
  | EnqueueResult.ok _ => LogEntry.info ("Downlink enqueued for " ++ eui)
  | EnqueueResult.rpcError e => LogEntry.error ("gRPC error for " ++ eui ++ ": " ++ e)
  | EnqueueResult.timeoutErr => LogEntry.error ("Timeout sending to " ++ eui)
  | EnqueueResult.otherErr e => LogEntry.error ("Unexpected error for " ++ eui ++ ": " ++ e)

/-- send_downlink_parallel (lines 115-129). The dict comprehension of
line 117 submits one _enqueue(eui, payload) task per entry of dev_euis,
in list order, before any result is awaited; outcome i is the
environment-chosen result of the i-th submitted task and order is the
environment-chosen completion order of as_completed. Returns the
submitted calls and the log lines in completion order. -/
def send_downlink_parallel (dev_euis : List String) (hex_payload : String)
    (outcome : Nat → EnqueueResult) (order : List Nat) :
    List (String × String) × List LogEntry :=
  (dev_euis.map (fun eui => (eui, hex_payload)),
   order.map (fun i => handle_future (dev_euis.getD i "") (outcome i)))

/-- Decoded JSON body of an uplink MQTT message as on_message reads it:
deviceInfo.devEui, the number of keys of the object field (none when
the object field is absent, in which case len(None) raises TypeError at
line 191), and object.DI1_status. -/
structure UpData where
  devEui : Option String
  objectKeys : Option Nat
  di1 : Option String
deriving DecidableEq

/-- An MQTT message as on_message sees it: the slash-split topic and
the JSON payload (none when json.loads raises at line 188). -/
structure MqttMsg where
  topic : List String
  payloadJson : Option UpData
deriving DecidableEq

/-- Filtering part of on_message (lines 184-197): returns the token
forwarded to process_status, if any, and whether the catch-all except
clause logged an error. topic[5] out of range, an undecodable payload,
and len(None) on a missing object field all raise and are caught and
logged; every other non-matching message is dropped silently. -/
def on_message (msg : MqttMsg) : Option String × Bool :=
  match msg.topic[5]? with
  | none => (none, true)
  | some eventType =>
    match msg.payloadJson with
    | none => (none, true)
    | some data =>
      if eventType = "up" ∧ data.devEui = some MASTER_EUI then
        match data.objectKeys with
        | none => (none, true)
        | some len_obj =>
          if len_obj = 12 then
            match data.di1 with
            | some di1 => if di1 = "L" ∨ di1 = "H" then (some di1, false) else (none, false)
            | none => (none, false)
          else (none, false)
      else (none, false)

/-- Result of one on_message invocation including the forwarded
process_status call: surfaced is whether an exception escaped
on_message to the MQTT client loop, caughtLog whether the catch-all
except clause of line 196 logged. -/
structure IngestResult where
  state : DebounceState
  dispatches : List Dispatch
  logs : List LogEntry
  surfaced : Bool
  caughtLog : Bool
deriving DecidableEq

/-- on_message (lines 184-197) end to end: filter, then forward to
process_status; the try of line 185 spans both, so an exception raised
by the CSV read inside process_status is also caught and logged and
nothing ever propagates to the caller. -/
def on_message_full (msg : MqttMsg) (rows? : Option (List (List String)))
    (st : DebounceState) : IngestResult :=
  match on_message msg with
  | (some t, _) =>
    let r := process_status rows? st t
    { state := r.state, dispatches := r.dispatches, logs := r.logs,
      surfaced := false, caughtLog := r.raised }
  | (none, logged) =>
    { state := st, dispatches := [], logs := [], surfaced := false,
      caughtLog := logged }

/-- An uplink message from the master with a valid token whose object
field has 11 keys rather than 12. -/
def msg_len11 : MqttMsg :=
  { topic := ["application", "1", "device", "a84041679d5cfcf2", "event", "up"]
    payloadJson := some { devEui := some MASTER_EUI, objectKeys := some 11, di1 := some "L" } }

/-- A well-formed join event: foreign to the status path, dropped
without any log line. -/
def msg_join : MqttMsg :=
  { topic := ["application", "1", "device", "a84041679d5cfcf2", "event", "join"]
    payloadJson := some { devEui := some MASTER_EUI, objectKeys := some 12, di1 := none } }

/-- A message forwarding token L (used to exercise the ingestion path
at concrete inputs). -/
def msg_up_L : MqttMsg :=
  { topic := ["application", "1", "device", "a84041679d5cfcf2", "event", "up"]
    payloadJson := some { devEui := some MASTER_EUI, objectKeys := some 12, di1 := some "L" } }

/-- Timers that the handle variable can still cancel. -/
def handle_set : Option Nat → Finset Nat
  | none => ∅
  | some t => {t}

/-- Debouncer invariant: every armed not-yet-fired timer is the one the
handle variable records. -/
def DebounceInv (st : DebounceState) : Prop :=
  st.live ⊆ handle_set st.handle

lemma inv_init : DebounceInv init_debounce := by
  intro x hx
  simp [init_debounce] at hx

lemma live_cancel_then_arm (st : DebounceState) (h : DebounceInv st) :
    (cancel_then_arm st).live = {st.fresh} := by
  unfold DebounceInv at h
  unfold cancel_then_arm
  cases hh : st.handle with
  | none =>
    rw [hh] at h
    have hemp : st.live = ∅ := Finset.subset_empty.mp h
    simp [hh, hemp]
  | some t =>
    rw [hh] at h
    have hemp : st.live.erase t = ∅ := by
      apply Finset.subset_empty.mp
      intro x hx
      rcases Finset.mem_erase.mp hx with ⟨hne, hmem⟩
      have hx' := h hmem
      simp [handle_set] at hx'
      exact absurd hx' hne
    simp [hh, hemp]

lemma inv_cancel_then_arm (st : DebounceState) (h : DebounceInv st) :
    DebounceInv (cancel_then_arm st) := by
  unfold DebounceInv
  rw [live_cancel_then_arm st h]
  intro x hx
  simp [cancel_then_arm, handle_set]
  simpa using hx

lemma inv_step (a : Step) (st : DebounceState) (h : DebounceInv st) :
    DebounceInv (step a st) := by
  cases a with
  | statusCall => exact inv_cancel_then_arm st h
  | fire t =>
    simp only [step]
    by_cases ht : t ∈ st.live
    · rw [if_pos ht]
      intro x hx
      exact h (Finset.mem_of_mem_erase hx)
    · rw [if_neg ht]
      exact h
  | callbackRun t =>
    simp only [step]
    by_cases ht : t ∈ st.pending
    · rw [if_pos ht]
      intro x hx
      exact inv_cancel_then_arm st h hx
    · rw [if_neg ht]
      exact h

lemma inv_foldl (tr : List Step) (st : DebounceState) (h : DebounceInv st) :
    DebounceInv (tr.foldl (fun s a => step a s) st) := by
  induction tr generalizing st with
  | nil => exact h
  | cons a tl ih => exact ih (step a st) (inv_step a st h)

lemma inv_run (tr : List Step) : DebounceInv (run tr) :=
  inv_foldl tr init_debounce inv_init

lemma process_status_state (rows? : Option (List (List String)))
    (st : DebounceState) (tok : String) :
    (process_status rows? st tok).state = cancel_then_arm st := by
  cases rows? with
  | none => rfl
  | some rows =>
    unfold process_status
    by_cases h : read_controllers rows = [] <;> simp [h]

lemma process_status_raised (rows? : Option (List (List String)))
    (st : DebounceState) (tok : String) :
    (process_status rows? st tok).raised = rows?.isNone := by
  cases rows? with
  | none => rfl
  | some rows =>
    unfold process_status
    by_cases h : read_controllers rows = [] <;> simp [h]

lemma process_status_nonempty (rows : List (List String)) (st : DebounceState)
    (tok : String) (h : read_controllers rows ≠ []) :
    process_status (some rows) st tok =
      { state := cancel_then_arm st
        dispatches := [{ payload := select_payload tok, targets := read_controllers rows }]
        logs := [LogEntry.info "Processing status"]
        raised := false } := by
  unfold process_status
  simp [h]

lemma moduleInit_ok (rows : List (List String)) (m : ModuleState)
    (h : moduleInit rows = Except.ok m) :
    m.maxWorkers = min (read_controllers rows).length CONCURRENCY_CAP := by
  by_cases h0 : min (read_controllers rows).length CONCURRENCY_CAP = 0
  · simp [moduleInit, thread_pool_new, h0] at h
  · simp [moduleInit, thread_pool_new, h0] at h
    rw [← h]

lemma silent_run_spec (rows : List (List String)) (h : read_controllers rows ≠ []) :
    ∀ (k : Nat) (st : DebounceState), (silent_run (some rows) st k).2.length = k ∧
      ∀ d ∈ (silent_run (some rows) st k).2, d.payload = PAYLOAD_HIGH_HEX := by
  intro k
  induction k with
  | zero => intro st; simp [silent_run]
  | succ k ih =>
    intro st
    have hd : (timer_expiry (some rows) st).dispatches =
        [{ payload := select_payload "H", targets := read_controllers rows }] := by
      rw [timer_expiry, process_status_nonempty rows st "H" h]
    constructor
    · simp [silent_run, hd, (ih _).1]
    · intro d hd'
      simp [silent_run, hd] at hd'
      rcases hd' with h1 | h2
      · rw [h1]
        show select_payload "H" = PAYLOAD_HIGH_HEX
        decide
      · exact (ih _).2 d h2

/-- C1: inside the lock of process_status the old timer, when non-null,
is cancelled before the fresh timer is installed, so after the lock
section exactly the fresh timer is armed, and under every interleaving
of status calls, timer expiries and timer callbacks at most one timer
is outstanding at any instant. -/
theorem process_status_at_most_one_timer (tr : List Step) :
    (run tr).live.card ≤ 1 ∧
    (cancel_then_arm (run tr)).live = {(run tr).fresh} := by
  have hinv : DebounceInv (run tr) := inv_run tr
  constructor
  · calc (run tr).live.card ≤ (handle_set (run tr).handle).card :=
          Finset.card_le_card hinv
      _ ≤ 1 := by cases (run tr).handle <;> simp [handle_set]
  · exact live_cancel_then_arm _ hinv

/-- C2: a cycle whose fleet read returns M entries passes exactly that
list to send_downlink_parallel, which submits exactly one enqueue call
per entry (duplicates included), the submitted batch being independent
of every per-call result and of the completion order, so no entry is
retried within the cycle. -/
theorem dispatch_exactly_M_submissions (rows : List (List String))
    (st : DebounceState) (tok : String) (outcome : Nat → EnqueueResult)
    (order : List Nat) (h : read_controllers rows ≠ []) :
    ((process_status (some rows) st tok).dispatches =
      [{ payload := select_payload tok, targets := read_controllers rows }]) ∧
    ((send_downlink_parallel (read_controllers rows) (select_payload tok)
        outcome order).1.length = (read_controllers rows).length) ∧
    (((send_downlink_parallel (read_controllers rows) (select_payload tok)
        outcome order).1.map Prod.fst) = read_controllers rows) ∧
    (∀ eui, (((send_downlink_parallel (read_controllers rows) (select_payload tok)
        outcome order).1.map Prod.fst).count eui) =
      (read_controllers rows).count eui) ∧
    (∀ outcome' order',
      (send_downlink_parallel (read_controllers rows) (select_payload tok)
        outcome' order').1 =
      (send_downlink_parallel (read_controllers rows) (select_payload tok)
        outcome order).1) := by
  have hfst : ((send_downlink_parallel (read_controllers rows) (select_payload tok)
      outcome order).1.map Prod.fst) = read_controllers rows := by
    have hcomp : (Prod.fst ∘ fun eui : String => (eui, select_payload tok)) = id := rfl
    simp [send_downlink_parallel, List.map_map, hcomp]
  refine ⟨?_, ?_, hfst, ?_, ?_⟩
  · rw [process_status_nonempty rows st tok h]
  · simp [send_downlink_parallel]
  · intro eui
    rw [hfst]
  · intro outcome' order'
    rfl

/-- C2 witness at a fleet read with a duplicate entry. -/
theorem dispatch_exactly_M_submissions_witness :
    read_controllers [["d1", "controller"], ["d2", "controller"], ["d1", "controller"]] ≠ [] ∧
    (((send_downlink_parallel
        (read_controllers [["d1", "controller"], ["d2", "controller"], ["d1", "controller"]])
        (select_payload "L") (fun _ => EnqueueResult.timeoutErr) [0, 1, 2]).1.map
          Prod.fst).count "d1") =
      (read_controllers [["d1", "controller"], ["d2", "controller"], ["d1", "controller"]]).count "d1" :=
  ⟨by decide,
   (dispatch_exactly_M_submissions
      [["d1", "controller"], ["d2", "controller"], ["d1", "controller"]]
      init_debounce "L" (fun _ => EnqueueResult.timeoutErr) [0, 1, 2]
      (by decide)).2.2.2.1 "d1"⟩

/-- C3: an uncancelled expiry runs the callback, which is exactly
process_status of H: it re-arms a fresh timer (repeating window) and
starts exactly one dispatch batch with the default-safe payload; k
silent windows in a row therefore produce exactly k default-safe
dispatch batches. -/
theorem timer_expiry_acts_as_default_safe (rows : List (List String))
    (st : DebounceState) (h : read_controllers rows ≠ []) :
    (timer_expiry (some rows) st = process_status (some rows) st "H") ∧
    ((timer_expiry (some rows) st).state.handle = some st.fresh) ∧
    ((timer_expiry (some rows) st).state.fresh = st.fresh + 1) ∧
    ((timer_expiry (some rows) st).dispatches =
      [{ payload := PAYLOAD_HIGH_HEX, targets := read_controllers rows }]) ∧
    (∀ k, ((silent_run (some rows) st k).2.length = k ∧
      ∀ d ∈ (silent_run (some rows) st k).2, d.payload = PAYLOAD_HIGH_HEX)) := by
  have hH : select_payload "H" = PAYLOAD_HIGH_HEX := by decide
  refine ⟨rfl, ?_, ?_, ?_, fun k => silent_run_spec rows h k st⟩
  · rw [timer_expiry, process_status_state]
    rfl
  · rw [timer_expiry, process_status_state]
    rfl
  · rw [timer_expiry, process_status_nonempty rows st "H" h, hH]

/-- C3 witness at a one-controller fleet. -/
theorem timer_expiry_acts_as_default_safe_witness :
    read_controllers [["d1", "controller"]] ≠ [] ∧
    (timer_expiry (some [["d1", "controller"]]) init_debounce).dispatches =
      [{ payload := PAYLOAD_HIGH_HEX, targets := ["d1"] }] := by
  refine ⟨by decide, ?_⟩
  have h4 :=
    (timer_expiry_acts_as_default_safe [["d1", "controller"]] init_debounce (by decide)).2.2.2.1
  rw [h4]
  decide

/-- C4 counterexample: at process start _di_timeout_timer is None and
no timer object is armed, and main arms none either, so no deadman
timer runs before the first event, refuting the claim that one is
already running from startup. -/
theorem startup_no_timer_counterexample :
    (main_startup init_debounce).handle = none ∧
    (main_startup init_debounce).live = ∅ :=
  ⟨rfl, rfl⟩

/-- C4 amended: at startup the debouncer is unarmed (timer handle None,
no timer outstanding) and stays so through main's startup; only the
first process_status call, i.e. the first accepted event, arms the
first timer, so initial source silence is never detected. -/
theorem startup_unarmed_until_first_status
    (rows? : Option (List (List String))) (tok : String) :
    (main_startup init_debounce).handle = none ∧
    (main_startup init_debounce).live.card = 0 ∧
    ((process_status rows? (main_startup init_debounce) tok).state.handle = some 0) ∧
    ((process_status rows? (main_startup init_debounce) tok).state.live = {0}) := by
  refine ⟨rfl, rfl, ?_, ?_⟩
  · rw [process_status_state]
    rfl
  · rw [process_status_state]
    decide

/-- C5 counterexample: with a one-controller CSV at load, a later cycle
whose own fleet read returns five members still runs on the load-time
pool of size 1, not min(5, 10) = 5. -/
theorem cycle_pool_counterexample :
    moduleInit [["a", "controller"]] =
      Except.ok { controllers_list := ["a"], maxWorkers := 1 } ∧
    cycle_pool { controllers_list := ["a"], maxWorkers := 1 }
      [["c1", "controller"], ["c2", "controller"], ["c3", "controller"],
       ["c4", "controller"], ["c5", "controller"]] = 1 ∧
    min (read_controllers
      [["c1", "controller"], ["c2", "controller"], ["c3", "controller"],
       ["c4", "controller"], ["c5", "controller"]]).length CONCURRENCY_CAP = 5 ∧
    (1 : Nat) ≠ 5 := by
  refine ⟨rfl, rfl, by decide, by decide⟩

/-- C5 amended: the pool is sized min(initial fleet read, 10) once at
module load; every cycle runs on that same pool whatever its own fleet
read returns, so in-flight concurrency never exceeds the cap 10, but
the pool size does not track the current fleet size. -/
theorem pool_fixed_at_load_and_capped (rows : List (List String))
    (m : ModuleState) (h : moduleInit rows = Except.ok m)
    (cycleRows : List (List String)) :
    cycle_pool m cycleRows = min (read_controllers rows).length CONCURRENCY_CAP ∧
    cycle_pool m cycleRows ≤ CONCURRENCY_CAP := by
  have hm := moduleInit_ok rows m h
  constructor
  · exact hm
  · rw [cycle_pool, hm]
    exact Nat.min_le_right _ _

/-- C5 amended witness at a two-controller load. -/
theorem pool_fixed_at_load_and_capped_witness :
    moduleInit [["a", "controller"], ["b", "controller"]] =
      Except.ok { controllers_list := ["a", "b"], maxWorkers := 2 } ∧
    cycle_pool { controllers_list := ["a", "b"], maxWorkers := 2 } [] ≤ CONCURRENCY_CAP :=
  ⟨rfl,
   (pool_fixed_at_load_and_capped [["a", "controller"], ["b", "controller"]]
      { controllers_list := ["a", "b"], maxWorkers := 2 } rfl []).2⟩

/-- C6 counterexample: a deadman-triggered cycle (the timer callback of
line 160 is process_status of H, with no surrounding try) whose CSV
read raises skips the cycle but writes no log entry at all: the raise
escapes process_status into the timer thread, so an error is not
logged for every empty-or-unreadable fleet read as claimed. -/
theorem timer_unreadable_no_log_counterexample :
    (timer_expiry none init_debounce).logs = [] ∧
    (timer_expiry none init_debounce).raised = true ∧
    (timer_expiry none init_debounce).dispatches = [] :=
  ⟨rfl, rfl, rfl⟩

/-- C6 amended: when the cycle's fleet read is empty or the CSV is
unreadable, no dispatch batch starts and the new timer is already
armed so the next window retries naturally; the skip is logged
directly in the empty case, while an unreadable read raises after the
re-arm and writes no log line of its own — in the ingestion path the
catch-all then logs it and nothing surfaces to the MQTT caller, in the
timer path it escapes to the timer thread unlogged. -/
theorem empty_or_unreadable_fleet_skips_cycle
    (rows? : Option (List (List String))) (st : DebounceState) (tok : String)
    (h : rows? = none ∨ ∃ rows, rows? = some rows ∧ read_controllers rows = []) :
    (process_status rows? st tok).dispatches = [] ∧
    (process_status rows? st tok).state.handle = some st.fresh ∧
    ((process_status rows? st tok).raised = false →
      (process_status rows? st tok).logs =
        [LogEntry.error "No controllers found, skip downlink"]) ∧
    (rows? = none →
      (process_status rows? st tok).logs = [] ∧
      (process_status rows? st tok).raised = true) ∧
    (∀ msg : MqttMsg,
      (on_message_full msg rows? st).surfaced = false ∧
      (on_message_full msg rows? st).dispatches = [] ∧
      ((on_message msg).1 ≠ none → (process_status rows? st tok).raised = true →
        (on_message_full msg rows? st).caughtLog = true)) := by
  have hstate : (process_status rows? st tok).state = cancel_then_arm st :=
    process_status_state rows? st tok
  have hdisp : ∀ t : String, (process_status rows? st t).dispatches = [] := by
    intro t
    rcases h with h | ⟨rows, hr, he⟩
    · rw [h]; rfl
    · rw [hr]; unfold process_status; simp [he]
  refine ⟨hdisp tok, by rw [hstate]; rfl, ?_, ?_, ?_⟩
  · intro hraise
    rcases h with h | ⟨rows, hr, he⟩
    · rw [h] at hraise; simp [process_status] at hraise
    · rw [hr]; unfold process_status; simp [he]
  · intro hnone
    subst hnone
    exact ⟨rfl, rfl⟩
  · intro msg
    rcases hm : on_message msg with ⟨fwd, lg⟩
    cases fwd with
    | none =>
      refine ⟨by simp [on_message_full, hm], by simp [on_message_full, hm], ?_⟩
      intro hne
      exact absurd rfl hne
    | some t =>
      refine ⟨by simp [on_message_full, hm], ?_, ?_⟩
      · simp [on_message_full, hm, hdisp t]
      · intro _ hraise
        have h1 := process_status_raised rows? st tok
        have h2 := process_status_raised rows? st t
        rw [hraise] at h1
        simp [on_message_full, hm, h2, ← h1]

/-- C6 witness at an empty fleet read. -/
theorem empty_or_unreadable_fleet_skips_cycle_witness :
    ((some ([] : List (List String)) = none ∨
      ∃ rows, (some ([] : List (List String))) = some rows ∧
        read_controllers rows = [])) ∧
    (process_status (some []) init_debounce "L").dispatches = [] :=
  ⟨Or.inr ⟨[], rfl, rfl⟩,
   (empty_or_unreadable_fleet_skips_cycle (some []) init_debounce "L"
      (Or.inr ⟨[], rfl, rfl⟩)).1⟩

/-- C7 counterexample: msg_len11 comes from the authoritative source
with recognized token L yet is not forwarded (its object field has 11
keys, not 12), and the foreign msg_join is dropped with no log entry;
both refute the claimed forward-iff condition and the claimed
log-on-every-drop. -/
theorem on_message_filter_counterexample :
    msg_len11.payloadJson =
      some { devEui := some MASTER_EUI, objectKeys := some 11, di1 := some "L" } ∧
    on_message msg_len11 = (none, false) ∧
    on_message msg_join = (none, false) := by
  decide

/-- C7 amended: a token is forwarded iff the topic's sixth segment is
up, the payload decodes to data whose devEui equals MASTER_EUI, whose
object field has exactly 12 keys and whose DI1_status is L or H;
non-forwarded events are dropped, and the drop is logged exactly when
decoding raised — a short topic, an undecodable payload, or a missing
object field on a master up message — every other drop being silent;
no input makes the handler raise to its caller. -/
theorem on_message_forward_iff (msg : MqttMsg) (t : String) :
    ((on_message msg).1 = some t ↔
      (msg.topic[5]? = some "up" ∧
       ∃ d : UpData, msg.payloadJson = some d ∧ d.devEui = some MASTER_EUI ∧
         d.objectKeys = some 12 ∧ d.di1 = some t ∧ (t = "L" ∨ t = "H"))) ∧
    ((on_message msg).2 = true ↔
      (msg.topic[5]? = none ∨
       (msg.topic[5]? ≠ none ∧ msg.payloadJson = none) ∨
       (msg.topic[5]? = some "up" ∧
        ∃ d : UpData, msg.payloadJson = some d ∧ d.devEui = some MASTER_EUI ∧
          d.objectKeys = none))) ∧
    (∀ rows? st, (on_message_full msg rows? st).surfaced = false) := by
  refine ⟨?_, ?_, ?_⟩
  · constructor
    · intro hf
      cases ht : msg.topic[5]? with
      | none => simp [on_message, ht] at hf
      | some et =>
        cases hp : msg.payloadJson with
        | none => simp [on_message, ht, hp] at hf
        | some d =>
          by_cases hup : et = "up" ∧ d.devEui = some MASTER_EUI
          · cases hok : d.objectKeys with
            | none => simp [on_message, ht, hp, hup, hok] at hf
            | some n =>
              by_cases h12 : n = 12
              · cases hdi : d.di1 with
                | none => simp [on_message, ht, hp, hup, hok, h12, hdi] at hf
                | some tokv =>
                  by_cases htok : tokv = "L" ∨ tokv = "H"
                  · simp [on_message, ht, hp, hup, hok, h12, hdi, htok] at hf
                    subst hf
                    subst h12
                    exact ⟨by rw [hup.1], d, rfl, hup.2, hok, hdi, htok⟩
                  · simp [on_message, ht, hp, hup, hok, h12, hdi, htok] at hf
              · simp [on_message, ht, hp, hup, hok, h12] at hf
          · simp [on_message, ht, hp, hup] at hf
    · rintro ⟨hup5, d, hp, hdev, hok, hdi, htok⟩
      rcases htok with h | h <;>
        simp [on_message, hup5, hp, hdev, hok, hdi, h]
  · constructor
    · intro hl
      cases ht : msg.topic[5]? with
      | none => exact Or.inl rfl
      | some et =>
        cases hp : msg.payloadJson with
        | none => exact Or.inr (Or.inl ⟨by simp, rfl⟩)
        | some d =>
          by_cases hup : et = "up" ∧ d.devEui = some MASTER_EUI
          · cases hok : d.objectKeys with
            | none => exact Or.inr (Or.inr ⟨by rw [hup.1], d, rfl, hup.2, hok⟩)
            | some n =>
              by_cases h12 : n = 12
              · cases hdi : d.di1 with
                | none => simp [on_message, ht, hp, hup, hok, h12, hdi] at hl
                | some tokv =>
                  by_cases htok : tokv = "L" ∨ tokv = "H"
                  · simp [on_message, ht, hp, hup, hok, h12, hdi, htok] at hl
                  · simp [on_message, ht, hp, hup, hok, h12, hdi, htok] at hl
              · simp [on_message, ht, hp, hup, hok, h12] at hl
          · simp [on_message, ht, hp, hup] at hl
    · rintro (h5 | ⟨h5, hp⟩ | ⟨h5, d, hp, hdev, hok⟩)
      · simp [on_message, h5]
      · cases ht : msg.topic[5]? with
        | none => exact absurd ht h5
        | some et => simp [on_message, ht, hp]
      · simp [on_message, h5, hp, hdev, hok]
  · intro rows? st
    rcases hm : on_message msg with ⟨fwd, lg⟩
    cases fwd <;> simp [on_message_full, hm]

/-- C7 amended witness: a well-formed master up message with 12 object
keys and token L is forwarded. -/
theorem on_message_forward_iff_witness :
    (on_message msg_up_L).1 = some "L" :=
  (on_message_forward_iff msg_up_L "L").1.mpr
    ⟨rfl, { devEui := some MASTER_EUI, objectKeys := some 12, di1 := some "L" },
     rfl, rfl, rfl, rfl, Or.inl rfl⟩

/-- C8: for any completion order of the M submitted futures, the
recorded log lines are a permutation of one entry per member index,
each computed from that member's own result alone, so an error or
timeout of one member leaves every other member's outcome recorded and
the cycle completes with M records. -/
theorem per_member_failure_isolated (dev_euis : List String)
    (hex_payload : String) (outcome : Nat → EnqueueResult) (order : List Nat)
    (h : order.Perm (List.range dev_euis.length)) :
    ((send_downlink_parallel dev_euis hex_payload outcome order).2).Perm
      ((List.range dev_euis.length).map
        (fun i => handle_future (dev_euis.getD i "") (outcome i))) ∧
    ((send_downlink_parallel dev_euis hex_payload outcome order).2).length =
      dev_euis.length := by
  have hmap := h.map (fun i => handle_future (dev_euis.getD i "") (outcome i))
  refine ⟨hmap, ?_⟩
  have hlen := hmap.length_eq
  simpa [send_downlink_parallel] using hlen

/-- C8 witness: member index 1 fails, the other two are recorded. -/
theorem per_member_failure_isolated_witness :
    ([2, 1, 0] : List Nat).Perm
      (List.range (["d1", "d2", "d3"] : List String).length) ∧
    ((send_downlink_parallel ["d1", "d2", "d3"] PAYLOAD_LOW_HEX
        (fun i => if i = 1 then EnqueueResult.rpcError "boom" else EnqueueResult.ok i)
        [2, 1, 0]).2).length = 3 :=
  ⟨by decide,
   (per_member_failure_isolated ["d1", "d2", "d3"] PAYLOAD_LOW_HEX
      (fun i => if i = 1 then EnqueueResult.rpcError "boom" else EnqueueResult.ok i)
      [2, 1, 0] (by decide)).2⟩

/-- C9: the dispatch-time payload mapping is total: token L yields
050011EA60 and every other token value yields 030000, and a cycle with
a non-empty fleet read always dispatches exactly the mapped payload. -/
theorem select_payload_total (tok : String) (rows : List (List String))
    (st : DebounceState) (hne : read_controllers rows ≠ []) :
    (select_payload "L" = "050011EA60") ∧
    (tok ≠ "L" → select_payload tok = "030000") ∧
    ((process_status (some rows) st tok).dispatches =
      [{ payload := select_payload tok, targets := read_controllers rows }]) := by
  refine ⟨rfl, ?_, ?_⟩
  · intro hne'
    simp [select_payload, hne', PAYLOAD_HIGH_HEX]
  · rw [process_status_nonempty rows st tok hne]

/-- C9 witness at the unrecognized token X. -/
theorem select_payload_total_witness :
    read_controllers [["d1", "controller"]] ≠ [] ∧ ("X" : String) ≠ "L" ∧
    select_payload "X" = "030000" :=
  ⟨by decide, by decide,
   (select_payload_total "X" [["d1", "controller"]] init_debounce (by decide)).2.1
     (by decide)⟩

/-- C10: a CSV whose load-time read yields zero controllers makes the
module import raise ValueError from the executor constructor, before
the MQTT loop or any event handling starts; for a successful load the
pool bound is min(initial count, 10) and every later cycle uses that
stored value unchanged. -/
theorem empty_initial_fleet_startup_fails (rows : List (List String))
    (h : read_controllers rows = []) :
    moduleInit rows = Except.error "max_workers must be greater than 0" ∧
    (∀ rows' m, moduleInit rows' = Except.ok m →
      m.maxWorkers = min (read_controllers rows').length CONCURRENCY_CAP ∧
      ∀ cycleRows, cycle_pool m cycleRows = m.maxWorkers) := by
  constructor
  · simp [moduleInit, thread_pool_new, h, CONCURRENCY_CAP]
  · intro rows' m hm
    exact ⟨moduleInit_ok rows' m hm, fun _ => rfl⟩

/-- C10 witness at a CSV with a single non-controller row. -/
theorem empty_initial_fleet_startup_fails_witness :
    read_controllers [["x", "sensor"]] = [] ∧
    moduleInit [["x", "sensor"]] = Except.error "max_workers must be greater than 0" :=
  ⟨by decide, (empty_initial_fleet_startup_fails [["x", "sensor"]] (by decide)).1⟩

end NCNOHandler
